import Mathlib

/-!
Shallow embedding of the flink core module (src/flink_core.c and src/flink.h).

The bus backend is modelled as a pure word memory mem : Nat → Nat, read through
readBus which applies the u32 truncation the C bus_ops->read32 signature imposes
on both the address and the returned value.  All machine integers of the source
(u8, u16, u32) are Nat with an explicit reduction modulo 2^32 (def u32) wherever
the C arithmetic can wrap.  Kernel-list iteration order is preserved: list_add
inserts at the head, so our Lean lists keep newest-first order, and the
list_for_each searches are List.find? (first match).  User-space copies
(copy_from_user / copy_to_user) are assumed to succeed; their failure paths are
environment behaviour outside the modelled core.
-/

namespace Flink

/-- 32-bit wrap-around, the value of a u32 expression. -/
def u32 (n : Nat) : Nat := n % 4294967296

/-- The u32 value of n - 1, as computed by C unsigned arithmetic: for n = 0 the
subtraction wraps to 0xFFFFFFFF. -/
def u32sub1 (n : Nat) : Nat := (n + 4294967295) % 4294967296

-- Constants from flink.h
def MAIN_HEADER_SIZE : Nat := 16
def SUB_HEADER_SIZE : Nat := 16
def SUBDEV_FUNCTION_OFFSET : Nat := 0
def SUBDEV_SIZE_OFFSET : Nat := 4
def SUBDEV_NOFCHANNELS_OFFSET : Nat := 8
def SUBDEV_UNIQUE_ID_OFFSET : Nat := 12
def INFO_FUNCTION_ID : Nat := 0
def MAX_NOF_SUBDEVICES : Nat := 256

/-- struct flink_subdevice (flink.h): the linked-list node and parent pointer are
represented by membership of the parent device's subdevice list. -/
structure flink_subdevice where
  id : Nat
  function_id : Nat
  sub_function_id : Nat
  function_version : Nat
  base_addr : Nat
  mem_size : Nat
  nof_channels : Nat
  unique_id : Nat
deriving DecidableEq, Repr

/-- bus_ops->read32: the address argument is a u32 and the result is a u32. -/
def readBus (mem : Nat → Nat) (a : Nat) : Nat := u32 (mem (u32 a))

/-- The subdevice built by one iteration of scan_for_subdevices when the size
word qualifies: field extraction from the packed function-descriptor word
(function id in the high 16 bits, sub-function in bits 8-15, version in bits
0-7), base address = current address, and channel count / unique id read from
the two further fixed header offsets. -/
def new_subdev (mem : Nat → Nat) (counter cur : Nat) : flink_subdevice :=
  { id := counter
    function_id := readBus mem (cur + SUBDEV_FUNCTION_OFFSET) / 65536
    sub_function_id := (readBus mem (cur + SUBDEV_FUNCTION_OFFSET) / 256) % 256
    function_version := readBus mem (cur + SUBDEV_FUNCTION_OFFSET) % 256
    base_addr := cur
    mem_size := readBus mem (cur + SUBDEV_SIZE_OFFSET)
    nof_channels := readBus mem (cur + SUBDEV_NOFCHANNELS_OFFSET)
    unique_id := readBus mem (cur + SUBDEV_UNIQUE_ID_OFFSET) }

/-- Result of a scan: the materialized subdevices in creation order together
with the trace of bus read addresses issued while scanning. -/
structure ScanResult where
  subdevs : List flink_subdevice
  reads : List Nat
deriving DecidableEq, Repr

/-- The while loop of scan_for_subdevices.  Arguments: fuel (strictly larger
than the remaining admissible iterations: every continuing iteration increments
subdevice_counter, which the loop bounds by MAX_NOF_SUBDEVICES, so fuel =
MAX_NOF_SUBDEVICES - counter never runs out before the real loop exits),
counter = subdevice_counter (= nof_subdevices of the fresh device), cur =
current_address, last = last_address. -/
def scanFrom (mem : Nat → Nat) : Nat → Nat → Nat → Nat → ScanResult
  | 0, _, _, _ => ⟨[], []⟩
  | fuel+1, counter, cur, last =>
    if cur < last ∧ counter < MAX_NOF_SUBDEVICES then
      if MAIN_HEADER_SIZE + SUB_HEADER_SIZE < (new_subdev mem counter cur).mem_size then
        if (new_subdev mem counter cur).function_id = INFO_FUNCTION_ID then
          ⟨new_subdev mem counter cur ::
             (scanFrom mem fuel (counter+1) (u32 (cur + (new_subdev mem counter cur).mem_size))
               (u32sub1 (readBus mem (cur + (MAIN_HEADER_SIZE + SUB_HEADER_SIZE))))).subdevs,
           [u32 (cur + SUBDEV_FUNCTION_OFFSET), u32 (cur + SUBDEV_SIZE_OFFSET),
            u32 (cur + SUBDEV_NOFCHANNELS_OFFSET), u32 (cur + SUBDEV_UNIQUE_ID_OFFSET),
            u32 (cur + (MAIN_HEADER_SIZE + SUB_HEADER_SIZE))] ++
             (scanFrom mem fuel (counter+1) (u32 (cur + (new_subdev mem counter cur).mem_size))
               (u32sub1 (readBus mem (cur + (MAIN_HEADER_SIZE + SUB_HEADER_SIZE))))).reads⟩
        else
          ⟨new_subdev mem counter cur ::
             (scanFrom mem fuel (counter+1) (u32 (cur + (new_subdev mem counter cur).mem_size)) last).subdevs,
           [u32 (cur + SUBDEV_FUNCTION_OFFSET), u32 (cur + SUBDEV_SIZE_OFFSET),
            u32 (cur + SUBDEV_NOFCHANNELS_OFFSET), u32 (cur + SUBDEV_UNIQUE_ID_OFFSET)] ++
             (scanFrom mem fuel (counter+1) (u32 (cur + (new_subdev mem counter cur).mem_size)) last).reads⟩
      else ⟨[], [u32 (cur + SUBDEV_FUNCTION_OFFSET), u32 (cur + SUBDEV_SIZE_OFFSET)]⟩
    else ⟨[], []⟩

/-- scan_for_subdevices (flink_core.c): current_address starts at 0 and
last_address = current_address + address_space_size - 1 in u32 arithmetic.
The C function returns subdevice_counter, i.e. the length of .subdevs. -/
def scan_for_subdevices (mem : Nat → Nat) (addr_space_size : Nat) : ScanResult :=
  scanFrom mem MAX_NOF_SUBDEVICES 0 0 (u32sub1 (u32 addr_space_size))

-- Scratch sanity checks (spec section 8 example): a chain
-- [{type no 0x0001.., size 48}, {size 0}] over a 48-byte space yields exactly
-- one subdevice with base 0 and size 48.
example :
    ((scan_for_subdevices (fun a => if a = 0 then 0x00010203 else if a = 4 then 48 else 0) 48).subdevs.map
      (fun sd => (sd.id, sd.base_addr, sd.mem_size))) = [(0, 0, 48)] := by decide

/-- struct flink_irq_data (flink.h): one interrupt line.  flink_process_data is
the per-line subscription list, one pid per struct flink_process_data entry,
newest first (list_add inserts at the head).  The two locks serialize ioctl
mutators against each other and against the interrupt handler; under the
sequential semantics modelled here they carry no state. -/
structure flink_irq_data where
  irq_nr : Nat
  signal_count : Nat
  signal_nr_with_offset : Nat
  irq_nr_with_offset : Nat
  flink_process_data : List Nat
deriving DecidableEq, Repr

/-- struct flink_device (flink.h): bus_ops and the char/sysfs node handles are
external capabilities, not part of the modelled state. -/
structure flink_device where
  nof_subdevices : Nat
  subdevices : List flink_subdevice
  nof_irqs : Nat
  irq_offset : Nat
  signal_offset : Nat
  hw_irq_data : List flink_irq_data
deriving DecidableEq, Repr

/-- flink_get_subdevice_by_id: linear scan over the device's subdevice list. -/
def flink_get_subdevice_by_id (fdev : flink_device) (id : Nat) : Option flink_subdevice :=
  fdev.subdevices.find? (fun s => s.id == id)

/-- The list_for_each_entry search over fdev->hw_irq_data for the entry with
the requested irq_nr, as in REGISTER_IRQ and UNREGISTER_IRQ. -/
def find_irq_data (lines : List flink_irq_data) (n : Nat) : Option flink_irq_data :=
  lines.find? (fun l => l.irq_nr == n)

/-- In-place mutation of the first hw_irq_data entry matching irq_nr, as the
ioctl handlers do after finding it (they mutate the found node and leave the
loop). -/
def update_irq_data : List flink_irq_data → Nat → (flink_irq_data → flink_irq_data) → List flink_irq_data
  | [], _, _ => []
  | l :: ls, n, f => if l.irq_nr == n then f l :: ls else l :: update_irq_data ls n f

/-- Outcome of the REGISTER_IRQ ioctl, tagged by the branch taken; errno gives
the long returned by flink_ioctl. -/
inductive RegResult where
  | notSupported
  | invalidArgument
  | alreadyRegistered
  | ok (signal : Nat)
  | fallthrough
deriving DecidableEq, Repr

/-- The long that flink_ioctl returns for each REGISTER_IRQ outcome:
-EPERM when no interrupt lines are declared, -EINVAL for both an out-of-range
line and a duplicate registration, the notification number on success, 0 when
the requested line is missing from hw_irq_data (loop falls through, break). -/
def RegResult.errno : RegResult → Int
  | .notSupported => -1
  | .invalidArgument => -22
  | .alreadyRegistered => -22
  | .ok signal => signal
  | .fallthrough => 0

/-- flink_ioctl case REGISTER_IRQ: the nof_irqs == 0 gate, the range check,
the duplicate-pid scan under the mutex, then allocation of a new
flink_process_data entry, head insertion under the spinlock, the
signal_nr_with_offset computation and the signal_count increment.  The
copy_from_user marshalling (and its size != 4 check) and a kzalloc failure are
environment effects and are assumed to succeed. -/
def register_irq (fdev : flink_device) (pid : Nat) (line : Nat) : flink_device × RegResult :=
  if fdev.nof_irqs = 0 then (fdev, .notSupported)
  else if fdev.nof_irqs ≤ line then (fdev, .invalidArgument)
  else match find_irq_data fdev.hw_irq_data line with
    | none => (fdev, .fallthrough)
    | some hwirq =>
      if pid ∈ hwirq.flink_process_data then (fdev, .alreadyRegistered)
      else
        ({ fdev with hw_irq_data := update_irq_data fdev.hw_irq_data line (fun l =>
            { l with flink_process_data := pid :: l.flink_process_data,
                     signal_nr_with_offset := u32 (fdev.signal_offset + l.irq_nr),
                     signal_count := l.signal_count + 1 }) },
         .ok (u32 (fdev.signal_offset + hwirq.irq_nr)))

/-- Outcome of the UNREGISTER_IRQ ioctl, tagged by the branch taken. -/
inductive UnregResult where
  | notSupported
  | invalidArgument
  | notRegistered
  | ok
  | fallthrough
deriving DecidableEq, Repr

/-- The long that flink_ioctl returns for each UNREGISTER_IRQ outcome. -/
def UnregResult.errno : UnregResult → Int
  | .notSupported => -1
  | .invalidArgument => -22
  | .notRegistered => -22
  | .ok => 0
  | .fallthrough => 0

/-- flink_ioctl case UNREGISTER_IRQ: the nof_irqs == 0 gate, the range check,
the signal_count == 0 gate, then the pid search under the mutex and removal of
the found entry under the spinlock.  Note the source never decrements
signal_count here. -/
def unregister_irq (fdev : flink_device) (pid : Nat) (line : Nat) : flink_device × UnregResult :=
  if fdev.nof_irqs = 0 then (fdev, .notSupported)
  else if fdev.nof_irqs ≤ line then (fdev, .invalidArgument)
  else match find_irq_data fdev.hw_irq_data line with
    | none => (fdev, .fallthrough)
    | some hwirq =>
      if hwirq.signal_count = 0 then (fdev, .notRegistered)
      else if pid ∈ hwirq.flink_process_data then
        ({ fdev with hw_irq_data := update_irq_data fdev.hw_irq_data line (fun l =>
            { l with flink_process_data := l.flink_process_data.erase pid }) },
         .ok)
      else (fdev, .notRegistered)

/-- flink_device_init_irq: a fresh device with no subdevices and one
kzalloc-zeroed hw_irq_data slot per declared line, irq_nr = i and
irq_nr_with_offset = irq_offset + i, inserted at the list head in creation
order (so the list holds lines nof_irq-1 .. 0). -/
def flink_device_init_irq (nof_irq irq_offset signal_offset : Nat) : flink_device :=
  { nof_subdevices := 0, subdevices := [],
    nof_irqs := nof_irq, irq_offset := irq_offset, signal_offset := signal_offset,
    hw_irq_data := ((List.range nof_irq).map (fun i =>
      { irq_nr := i, signal_count := 0, signal_nr_with_offset := 0,
        irq_nr_with_offset := u32 (irq_offset + i), flink_process_data := [] })).reverse }

/-- flink_read: the stream read on the currently selected subdevice.  Result is
the byte count the call returns together with the trace of bus addresses read;
no selection or an offset beyond mem_size or an unsupported width transfers
zero bytes with no bus access. -/
def flink_read (current : Option flink_subdevice) (size offset : Nat) : Nat × List Nat :=
  match current with
  | none => (0, [])
  | some subdev =>
    if subdev.mem_size < u32 offset then (0, [])
    else if size = 1 ∨ size = 2 ∨ size = 4 then (size, [u32 (subdev.base_addr + u32 offset)])
    else (0, [])

/-- flink_write: the stream write, with the same guards as flink_read; the
trace records the bus address written. -/
def flink_write (current : Option flink_subdevice) (size offset : Nat) : Nat × List Nat :=
  match current with
  | none => (0, [])
  | some subdev =>
    if subdev.mem_size < u32 offset then (0, [])
    else if size = 1 ∨ size = 2 ∨ size = 4 then (size, [u32 (subdev.base_addr + u32 offset)])
    else (0, [])

/-- flink_ioctl case SELECT_AND_READ: lookup of the addressed subdevice, the
offset > mem_size bound check (which returns -EINVAL), and the width switch.
Result is the ioctl return value and the trace of bus addresses read. -/
def flink_ioctl_select_and_read (fdev : flink_device) (subdevice offset size : Nat) : Int × List Nat :=
  match flink_get_subdevice_by_id fdev subdevice with
  | none => (-22, [])
  | some src =>
    if src.mem_size < offset then (-22, [])
    else if size = 1 ∨ size = 2 ∨ size = 4 then ((size : Int), [u32 (src.base_addr + offset)])
    else (-22, [])

/-- flink_select_subdevice for a session whose private data and device pointer
are valid: stores the id lookup result (none on a miss) as the current
selection and returns 0 unconditionally; excl is accepted but unused (TODO in
the source). -/
def flink_select_subdevice (fdev : flink_device) (subdevice : Nat) (excl : Bool) :
    Option flink_subdevice × Int :=
  (flink_get_subdevice_by_id fdev subdevice, 0)

/-- flink_ioctl case READ_SINGLE_BIT: dereferences current_subdevice with no
null check and reads the bus at base_addr + offset with no bound check; a
session with no selection is modelled as none (the dereference is not
well-defined).  Result: the extracted bit and the bus read trace. -/
def flink_ioctl_read_single_bit (mem : Nat → Nat) (current : Option flink_subdevice)
    (offset bit : Nat) : Option (Bool × List Nat) :=
  match current with
  | none => none
  | some subdev =>
    some (Nat.testBit (readBus mem (subdev.base_addr + offset)) bit,
          [u32 (subdev.base_addr + offset)])

/-- flink_ioctl case WRITE_SINGLE_BIT: same unchecked dereference and
addressing; reads the word at base_addr + offset, sets or clears the bit, and
writes it back.  Result: the word written and the trace of the bus read
followed by the bus write, both at base_addr + offset. -/
def flink_ioctl_write_single_bit (mem : Nat → Nat) (current : Option flink_subdevice)
    (offset bit : Nat) (value : Bool) : Option (Nat × List Nat) :=
  match current with
  | none => none
  | some subdev =>
    some ((if value then readBus mem (subdev.base_addr + offset) ||| u32 (2 ^ bit)
           else Nat.land (readBus mem (subdev.base_addr + offset)) (4294967295 - u32 (2 ^ bit))),
          [u32 (subdev.base_addr + offset), u32 (subdev.base_addr + offset)])

-- Sanity check of the irq model: a fresh one-line device.
example :
    (flink_device_init_irq 1 7 30).hw_irq_data
      = [{ irq_nr := 0, signal_count := 0, signal_nr_with_offset := 0,
           irq_nr_with_offset := 7, flink_process_data := [] }] := by decide

-- Concrete devices and memories used by the theorems below.

/-- A device with one declared interrupt line, irq_offset 7, signal_offset 30. -/
def devC1 : flink_device := flink_device_init_irq 1 7 30

/-- A 64-byte address space holding one header that declares size 100:
function word 0x00010000 (function id 1) at offset 0, size word 100 at 4. -/
def memC2 : Nat → Nat := fun a => if a = 0 then 65536 else if a = 4 then 100 else 0

/-- A well-formed 64-byte chain: one subdevice of declared size 48. -/
def memW2 : Nat → Nat := fun a => if a = 0 then 65536 else if a = 4 then 48 else 0

/-- A device holding a single subdevice with id 0 and mem_size 64. -/
def devC3 : flink_device :=
  { nof_subdevices := 1,
    subdevices := [{ id := 0, function_id := 1, sub_function_id := 0, function_version := 0,
                     base_addr := 0, mem_size := 64, nof_channels := 1, unique_id := 5 }],
    nof_irqs := 0, irq_offset := 0, signal_offset := 0, hw_irq_data := [] }

/-- A header chain for the step theorems: one subdevice of size 48 with
function id 1 at offset 0. -/
def mem5 : Nat → Nat := fun a => if a = 0 then 65536 else if a = 4 then 48 else 0

/-- An info chain: at offset 0 an info subdevice (function word 0x101, so
function id 0) of size 48 whose embedded total length (word at 32) is 48,
followed at offset 48 by a further header-shaped block (function id 1, size
word 64 at offset 52) that lies inside the bus-reported 65536-byte space but
past the shrunk bound. -/
def memC6 : Nat → Nat := fun a =>
  if a = 0 then 257
  else if a = 4 then 48
  else if a = 32 then 48
  else if a = 48 then 65536
  else if a = 52 then 64
  else 0

/-- A bus whose reported address-space size will be 0, with a header-shaped
word pair (function id 1, size 100) readable at offset 0. -/
def memC8 : Nat → Nat := fun a => if a = 0 then 65536 else if a = 4 then 100 else 0

-- ##################### Claim theorems #####################

/-- C1 (code bug): registering process 42 on line 0 of devC1 and then
unregistering it empties the line's subscription list, but leaves
signal_count at 1 rather than 0: UNREGISTER_IRQ never decrements the counter,
although flink.h documents signal_count as the length of flink_process_data
and as the line's registered/idle indicator.  The round trip therefore does
not restore the line's initial state, contradicting the claim. -/
theorem register_unregister_leaves_stale_count :
    (register_irq devC1 42 0).2 = RegResult.ok 30 ∧
    (unregister_irq (register_irq devC1 42 0).1 42 0).2 = UnregResult.ok ∧
    find_irq_data (unregister_irq (register_irq devC1 42 0).1 42 0).1.hw_irq_data 0
      = some { irq_nr := 0, signal_count := 1, signal_nr_with_offset := 30,
               irq_nr_with_offset := 7, flink_process_data := [] } := by decide

/-- C2 counterexample: over a declared 64-byte address space, a header whose
size word is 100 is materialized as a subdevice with base_offset 0 and size
100, and 0 + 100 exceeds 64 — scan_for_subdevices never validates
base_offset + size against the bound. -/
theorem scan_exceeds_address_space :
    ((scan_for_subdevices memC2 64).subdevs.map (fun sd => (sd.base_addr, sd.mem_size)))
        = [(0, 100)] ∧
    ¬ (0 + 100 ≤ 64) := by decide

/-- C3 counterexample: a SELECT_AND_READ on subdevice 0 of devC3 (mem_size 64)
with offset 65 returns -EINVAL, not a zero-byte transfer; it performs no bus
read. -/
theorem select_and_read_einval_counterexample :
    flink_ioctl_select_and_read devC3 0 65 4 = (-22, []) ∧ ((-22 : Int) ≠ 0) := by decide

/-- C3 (amended): a select_and_read whose offset is strictly greater than the
addressed subdevice's mem_size fails with -EINVAL (InvalidArgument) and
performs no bus read, for every width. -/
theorem select_and_read_out_of_range :
    ∀ (fdev : flink_device) (subdevice offset size : Nat) (src : flink_subdevice),
    flink_get_subdevice_by_id fdev subdevice = some src →
    src.mem_size < offset →
    flink_ioctl_select_and_read fdev subdevice offset size = (-22, []) := by
  intro fdev subdevice offset size src hfind hoff
  simp [flink_ioctl_select_and_read, hfind, hoff]

/-- Witness for select_and_read_out_of_range at devC3, subdevice 0, offset 65. -/
theorem select_and_read_out_of_range_witness :
    flink_ioctl_select_and_read devC3 0 65 4 = (-22, []) :=
  select_and_read_out_of_range devC3 0 65 4
    { id := 0, function_id := 1, sub_function_id := 0, function_version := 0,
      base_addr := 0, mem_size := 64, nof_channels := 1, unique_id := 5 }
    (by decide) (by decide)

/-- C8 (code bug): with a reported address-space size of 0, last_address is
computed as 0 + 0 - 1 in u32 arithmetic, which wraps to 4294967295, so the scan
loop runs: the scanner issues header reads (here at 0, 4, 8, 12 and then 100,
104) and even materializes a subdevice, instead of performing no header reads
and producing zero subdevices. -/
theorem scan_zero_address_space_underflow :
    u32sub1 (u32 0) = 4294967295 ∧
    (scan_for_subdevices memC8 0).reads = [0, 4, 8, 12, 100, 104] ∧
    (scan_for_subdevices memC8 0).subdevs.length = 1 := by decide

/-- C9: for a session bound to a device, flink_select_subdevice returns 0 for
every requested id — including ids with no matching subdevice; on a lookup
miss the stored selection is none, and subsequent stream reads and writes on a
none selection transfer zero bytes with no bus access. -/
theorem select_subdevice_always_ok :
    ∀ (fdev : flink_device) (id : Nat) (excl : Bool),
    (flink_select_subdevice fdev id excl).2 = 0 ∧
    (flink_get_subdevice_by_id fdev id = none →
      (flink_select_subdevice fdev id excl).1 = none ∧
      ∀ size offset, flink_read none size offset = (0, []) ∧
        flink_write none size offset = (0, [])) := by
  intro fdev id excl
  refine ⟨rfl, fun h => ⟨h, fun size offset => ⟨rfl, rfl⟩⟩⟩

/-- Witness for select_subdevice_always_ok at devC3 and the absent id 3. -/
theorem select_subdevice_always_ok_witness :
    (flink_select_subdevice devC3 3 false).2 = 0 ∧
    (flink_select_subdevice devC3 3 false).1 = none ∧
    flink_read none 4 0 = (0, []) ∧ flink_write none 4 0 = (0, []) := by
  have h := select_subdevice_always_ok devC3 3 false
  have h2 := h.2 (by decide)
  exact ⟨h.1, h2.1, (h2.2 4 0).1, (h2.2 4 0).2⟩

/-- C10: READ_SINGLE_BIT and WRITE_SINGLE_BIT access the bus at
current_subdevice.base_addr + offset for every offset — no bound against
mem_size is checked — and dereference the current selection without a null
check, so they are only well-defined when a subdevice is selected (a none
selection yields no defined result); by contrast the stream read and write
guard both conditions and transfer zero bytes without touching the bus. -/
theorem single_bit_unchecked :
    ∀ (mem : Nat → Nat) (sd : flink_subdevice) (offset bit size : Nat) (value : Bool),
    (Option.map Prod.snd (flink_ioctl_read_single_bit mem (some sd) offset bit)
        = some [u32 (sd.base_addr + offset)]) ∧
    (Option.map Prod.snd (flink_ioctl_write_single_bit mem (some sd) offset bit value)
        = some [u32 (sd.base_addr + offset), u32 (sd.base_addr + offset)]) ∧
    flink_ioctl_read_single_bit mem none offset bit = none ∧
    flink_ioctl_write_single_bit mem none offset bit value = none ∧
    (sd.mem_size < u32 offset →
      flink_read (some sd) size offset = (0, []) ∧
      flink_write (some sd) size offset = (0, [])) := by
  intro mem sd offset bit size value
  refine ⟨rfl, rfl, rfl, rfl, fun hoff => ⟨?_, ?_⟩⟩
  · simp [flink_read, hoff]
  · simp [flink_write, hoff]

/-- Witness for single_bit_unchecked on the devC3 subdevice (mem_size 64) at
the out-of-range offset 100: the single-bit access still touches the bus at
base_addr + 100 while the stream read and write transfer zero bytes. -/
theorem single_bit_unchecked_witness :
    (Option.map Prod.snd (flink_ioctl_read_single_bit (fun _ => 0)
        (some { id := 0, function_id := 1, sub_function_id := 0, function_version := 0,
                base_addr := 0, mem_size := 64, nof_channels := 1, unique_id := 5 }) 100 3)
      = some [u32 (0 + 100)]) ∧
    flink_read (some { id := 0, function_id := 1, sub_function_id := 0, function_version := 0,
                       base_addr := 0, mem_size := 64, nof_channels := 1, unique_id := 5 }) 4 100
      = (0, []) := by
  have h := single_bit_unchecked (fun _ => 0)
    { id := 0, function_id := 1, sub_function_id := 0, function_version := 0,
      base_addr := 0, mem_size := 64, nof_channels := 1, unique_id := 5 } 100 3 4 false
  exact ⟨h.1, (h.2.2.2.2 (by decide)).1⟩

/-- C4: REGISTER_IRQ fails with -EPERM (NotSupported) when the device declares
zero interrupt lines, with -EINVAL (InvalidArgument) when the requested line
number is at or above nof_irqs, and with -EINVAL tagged AlreadyRegistered when
the line already holds a subscription for the same process; the duplicate
failure returns the device state unchanged, so the line's subscription count
is unchanged by the failed call. -/
theorem register_irq_error_paths :
    ∀ (fdev : flink_device) (pid line : Nat) (hwirq : flink_irq_data),
    (fdev.nof_irqs = 0 → register_irq fdev pid line = (fdev, RegResult.notSupported)) ∧
    (fdev.nof_irqs ≠ 0 → fdev.nof_irqs ≤ line →
      register_irq fdev pid line = (fdev, RegResult.invalidArgument)) ∧
    (fdev.nof_irqs ≠ 0 → line < fdev.nof_irqs →
      find_irq_data fdev.hw_irq_data line = some hwirq →
      pid ∈ hwirq.flink_process_data →
      register_irq fdev pid line = (fdev, RegResult.alreadyRegistered)) := by
  intro fdev pid line hwirq
  refine ⟨fun h0 => ?_, fun h0 hr => ?_, fun h0 hr hfind hdup => ?_⟩
  · simp [register_irq, h0]
  · simp [register_irq, h0, hr]
  · simp [register_irq, h0, Nat.not_le.mpr hr, hfind, hdup]

/-- Witness for register_irq_error_paths: a zero-line device rejects with
notSupported, devC1 rejects line 5 as invalidArgument, and a second
registration of pid 42 on line 0 of devC1 fails as alreadyRegistered leaving
the device unchanged. -/
theorem register_irq_error_paths_witness :
    register_irq (flink_device_init_irq 0 0 0) 42 0
        = (flink_device_init_irq 0 0 0, RegResult.notSupported) ∧
    register_irq devC1 42 5 = (devC1, RegResult.invalidArgument) ∧
    register_irq (register_irq devC1 42 0).1 42 0
        = ((register_irq devC1 42 0).1, RegResult.alreadyRegistered) := by
  refine ⟨?_, ?_, ?_⟩
  · exact (register_irq_error_paths (flink_device_init_irq 0 0 0) 42 0
      { irq_nr := 0, signal_count := 0, signal_nr_with_offset := 0,
        irq_nr_with_offset := 0, flink_process_data := [] }).1 (by decide)
  · exact (register_irq_error_paths devC1 42 5
      { irq_nr := 0, signal_count := 0, signal_nr_with_offset := 0,
        irq_nr_with_offset := 0, flink_process_data := [] }).2.1 (by decide) (by decide)
  · exact (register_irq_error_paths (register_irq devC1 42 0).1 42 0
      { irq_nr := 0, signal_count := 1, signal_nr_with_offset := 30,
        irq_nr_with_offset := 7, flink_process_data := [42] }).2.2 (by decide) (by decide)
      (by decide) (by decide)

/-- C7: on a device with at least one declared interrupt line, a successful
REGISTER_IRQ on an in-range line returns the notification number
signal_offset + line (computed in u32; the hypothesis excludes the wrap). -/
theorem register_irq_returns_notification :
    ∀ (fdev : flink_device) (pid line : Nat) (hwirq : flink_irq_data),
    fdev.nof_irqs ≠ 0 → line < fdev.nof_irqs →
    find_irq_data fdev.hw_irq_data line = some hwirq →
    pid ∉ hwirq.flink_process_data →
    fdev.signal_offset + line < 4294967296 →
    (register_irq fdev pid line).2 = RegResult.ok (fdev.signal_offset + line) := by
  intro fdev pid line hwirq h0 hr hfind hnew hlt
  have hnr : hwirq.irq_nr = line := by
    have := List.find?_some hfind
    simpa using this
  simp [register_irq, h0, Nat.not_le.mpr hr, hfind, hnew, hnr, u32, Nat.mod_eq_of_lt hlt]

/-- Witness for register_irq_returns_notification: registering pid 42 on line 0
of devC1 (signal_offset 30) returns notification number 30. -/
theorem register_irq_returns_notification_witness :
    (register_irq devC1 42 0).2 = RegResult.ok (devC1.signal_offset + 0) :=
  register_irq_returns_notification devC1 42 0
    { irq_nr := 0, signal_count := 0, signal_nr_with_offset := 0,
      irq_nr_with_offset := 7, flink_process_data := [] }
    (by decide) (by decide) (by decide) (by decide) (by decide)

-- Unfolding lemmas for one iteration of the scan loop (shared helpers).

/-- One continuing scan iteration on an info subdevice (function id 0): the
subdevice is materialized and the recursive call proceeds with the bound
replaced by the embedded total length - 1 (u32). -/
theorem scanFrom_succ_info (mem : Nat → Nat) (fuel counter cur last : Nat)
    (h1 : cur < last) (h2 : counter < MAX_NOF_SUBDEVICES)
    (hsz : MAIN_HEADER_SIZE + SUB_HEADER_SIZE < (new_subdev mem counter cur).mem_size)
    (hinfo : (new_subdev mem counter cur).function_id = INFO_FUNCTION_ID) :
    (scanFrom mem (fuel+1) counter cur last).subdevs =
      new_subdev mem counter cur ::
        (scanFrom mem fuel (counter+1) (u32 (cur + (new_subdev mem counter cur).mem_size))
          (u32sub1 (readBus mem (cur + (MAIN_HEADER_SIZE + SUB_HEADER_SIZE))))).subdevs := by
  simp [scanFrom, h1, h2, hsz, hinfo]

/-- One continuing scan iteration on a non-info subdevice: the subdevice is
materialized and the bound is unchanged. -/
theorem scanFrom_succ_noinfo (mem : Nat → Nat) (fuel counter cur last : Nat)
    (h1 : cur < last) (h2 : counter < MAX_NOF_SUBDEVICES)
    (hsz : MAIN_HEADER_SIZE + SUB_HEADER_SIZE < (new_subdev mem counter cur).mem_size)
    (hinfo : ¬ (new_subdev mem counter cur).function_id = INFO_FUNCTION_ID) :
    (scanFrom mem (fuel+1) counter cur last).subdevs =
      new_subdev mem counter cur ::
        (scanFrom mem fuel (counter+1) (u32 (cur + (new_subdev mem counter cur).mem_size)) last).subdevs := by
  simp [scanFrom, h1, h2, hsz, hinfo]

/-- A scan iteration whose size word does not exceed the combined header size
materializes nothing: the sentinel stops the walk. -/
theorem scanFrom_succ_stop (mem : Nat → Nat) (fuel counter cur last : Nat)
    (hsz : ¬ MAIN_HEADER_SIZE + SUB_HEADER_SIZE < (new_subdev mem counter cur).mem_size) :
    (scanFrom mem (fuel+1) counter cur last).subdevs = [] := by
  by_cases hcond : cur < last ∧ counter < MAX_NOF_SUBDEVICES
  · simp [scanFrom, hcond.1, hcond.2, hsz]
  · simp [scanFrom, hcond]

/-- A scan iteration whose loop condition fails materializes nothing. -/
theorem scanFrom_succ_halt (mem : Nat → Nat) (fuel counter cur last : Nat)
    (hcond : ¬ (cur < last ∧ counter < MAX_NOF_SUBDEVICES)) :
    (scanFrom mem (fuel+1) counter cur last).subdevs = [] := by
  simp [scanFrom, hcond]

/-- C5: when the loop condition holds, a scan step materializes a subdevice at
the current offset exactly when the byte-size word read there exceeds the
combined main+sub header size of 32 bytes, and advances the scan pointer by
that declared size (with the bound possibly replaced when the subdevice is the
info function); when the size word is at most 32 — including a declared size
of 0 — the step materializes nothing, the walk stops, and the scan still
returns its count normally (the model has no error outcome, matching the C
return type unsigned int). -/
theorem scan_step (mem : Nat → Nat) (fuel counter cur last : Nat)
    (h1 : cur < last) (h2 : counter < MAX_NOF_SUBDEVICES) :
    (MAIN_HEADER_SIZE + SUB_HEADER_SIZE < (new_subdev mem counter cur).mem_size →
      (new_subdev mem counter cur).mem_size = readBus mem (cur + SUBDEV_SIZE_OFFSET) ∧
      (new_subdev mem counter cur).base_addr = cur ∧
      (scanFrom mem (fuel+1) counter cur last).subdevs =
        new_subdev mem counter cur ::
          (scanFrom mem fuel (counter+1) (u32 (cur + (new_subdev mem counter cur).mem_size))
            (if (new_subdev mem counter cur).function_id = INFO_FUNCTION_ID
             then u32sub1 (readBus mem (cur + (MAIN_HEADER_SIZE + SUB_HEADER_SIZE)))
             else last)).subdevs) ∧
    ((new_subdev mem counter cur).mem_size ≤ MAIN_HEADER_SIZE + SUB_HEADER_SIZE →
      (scanFrom mem (fuel+1) counter cur last).subdevs = []) := by
  constructor
  · intro hsz
    refine ⟨rfl, rfl, ?_⟩
    by_cases hinfo : (new_subdev mem counter cur).function_id = INFO_FUNCTION_ID
    · rw [if_pos hinfo]
      exact scanFrom_succ_info mem fuel counter cur last h1 h2 hsz hinfo
    · rw [if_neg hinfo]
      exact scanFrom_succ_noinfo mem fuel counter cur last h1 h2 hsz hinfo
  · intro hsz
    exact scanFrom_succ_stop mem fuel counter cur last (Nat.not_lt.mpr hsz)

/-- Witness for scan_step on mem5 (one subdevice of declared size 48) with
bound 100: the step materializes the subdevice at offset 0 and advances by 48. -/
theorem scan_step_witness :
    (new_subdev mem5 0 0).mem_size = readBus mem5 (0 + SUBDEV_SIZE_OFFSET) ∧
    (new_subdev mem5 0 0).base_addr = 0 ∧
    (scanFrom mem5 (0+1) 0 0 100).subdevs =
      new_subdev mem5 0 0 ::
        (scanFrom mem5 0 (0+1) (u32 (0 + (new_subdev mem5 0 0).mem_size))
          (if (new_subdev mem5 0 0).function_id = INFO_FUNCTION_ID
           then u32sub1 (readBus mem5 (0 + (MAIN_HEADER_SIZE + SUB_HEADER_SIZE)))
           else 100)).subdevs :=
  (scan_step mem5 0 0 0 100 (by decide) (by decide)).1 (by decide)

/-- C6: when a materialized subdevice has function id 0x00 (the info
function), the 32-bit total-length word read at offset 32 within it replaces
the upper scan bound (as total - 1 in u32) for the remainder of the walk; in
particular, over memC6 — whose info subdevice shrinks the bound to 48 — the
scan of a 65536-byte space stops after that single subdevice even though a
further header-shaped block (size word 64 > 32) follows at offset 48, where
the continuation under the old bound 65535 would have materialized it. -/
theorem scan_info_overrides_bound :
    (∀ (mem : Nat → Nat) (fuel counter cur last : Nat),
      cur < last → counter < MAX_NOF_SUBDEVICES →
      MAIN_HEADER_SIZE + SUB_HEADER_SIZE < (new_subdev mem counter cur).mem_size →
      (new_subdev mem counter cur).function_id = INFO_FUNCTION_ID →
      (scanFrom mem (fuel+1) counter cur last).subdevs =
        new_subdev mem counter cur ::
          (scanFrom mem fuel (counter+1) (u32 (cur + (new_subdev mem counter cur).mem_size))
            (u32sub1 (readBus mem (cur + (MAIN_HEADER_SIZE + SUB_HEADER_SIZE))))).subdevs) ∧
    (scan_for_subdevices memC6 65536).subdevs.length = 1 ∧
    32 < readBus memC6 (48 + SUBDEV_SIZE_OFFSET) ∧
    (scanFrom memC6 255 1 48 65535).subdevs.length = 1 := by
  refine ⟨?_, by decide, by decide, by decide⟩
  intro mem fuel counter cur last h1 h2 hsz hinfo
  exact scanFrom_succ_info mem fuel counter cur last h1 h2 hsz hinfo

/-- Witness for the universally quantified part of scan_info_overrides_bound,
instantiated on memC6 at the top of the walk: the info subdevice at offset 0
is materialized and the continuation runs under the shrunk bound
u32sub1 (readBus memC6 32) = 47. -/
theorem scan_info_overrides_bound_witness :
    (scanFrom memC6 (255+1) 0 0 65535).subdevs =
      new_subdev memC6 0 0 ::
        (scanFrom memC6 255 (0+1) (u32 (0 + (new_subdev memC6 0 0).mem_size))
          (u32sub1 (readBus memC6 (0 + (MAIN_HEADER_SIZE + SUB_HEADER_SIZE))))).subdevs :=
  scan_info_overrides_bound.1 memC6 255 0 0 65535 (by decide) (by decide) (by decide) (by decide)

/-- Every subdevice a scan materializes was created while its base offset was
strictly below the bound then in effect: that bound is the last parameter of
the enclosing call, or the value derived from an info subdevice of the same
result.  Generalized over all loop states for the induction. -/
theorem scanFrom_base_bound (mem : Nat → Nat) :
    ∀ (fuel counter cur last : Nat) (sd : flink_subdevice),
    sd ∈ (scanFrom mem fuel counter cur last).subdevs →
    sd.base_addr < last ∨
    ∃ info, info ∈ (scanFrom mem fuel counter cur last).subdevs ∧
      info.function_id = INFO_FUNCTION_ID ∧
      sd.base_addr < u32sub1 (readBus mem (info.base_addr + (MAIN_HEADER_SIZE + SUB_HEADER_SIZE))) := by
  intro fuel
  induction fuel with
  | zero =>
    intro counter cur last sd hmem
    simp [scanFrom] at hmem
  | succ fuel ih =>
    intro counter cur last sd hmem
    by_cases hcond : cur < last ∧ counter < MAX_NOF_SUBDEVICES
    case neg =>
      rw [scanFrom_succ_halt mem fuel counter cur last hcond] at hmem
      simp at hmem
    case pos =>
      by_cases hsz : MAIN_HEADER_SIZE + SUB_HEADER_SIZE < (new_subdev mem counter cur).mem_size
      case neg =>
        rw [scanFrom_succ_stop mem fuel counter cur last hsz] at hmem
        simp at hmem
      case pos =>
        by_cases hinfo : (new_subdev mem counter cur).function_id = INFO_FUNCTION_ID
        · rw [scanFrom_succ_info mem fuel counter cur last hcond.1 hcond.2 hsz hinfo] at hmem
          rcases List.mem_cons.mp hmem with hhd | htl
          · left
            rw [hhd]
            exact hcond.1
          · rcases ih (counter+1) (u32 (cur + (new_subdev mem counter cur).mem_size))
                (u32sub1 (readBus mem (cur + (MAIN_HEADER_SIZE + SUB_HEADER_SIZE)))) sd htl with
              hlt | ⟨info, hi, hfi, hbd⟩
            · right
              refine ⟨new_subdev mem counter cur, ?_, hinfo, ?_⟩
              · rw [scanFrom_succ_info mem fuel counter cur last hcond.1 hcond.2 hsz hinfo]
                exact List.mem_cons_self _ _
              · exact hlt
            · right
              refine ⟨info, ?_, hfi, hbd⟩
              rw [scanFrom_succ_info mem fuel counter cur last hcond.1 hcond.2 hsz hinfo]
              exact List.mem_cons_of_mem _ hi
        · rw [scanFrom_succ_noinfo mem fuel counter cur last hcond.1 hcond.2 hsz hinfo] at hmem
          rcases List.mem_cons.mp hmem with hhd | htl
          · left
            rw [hhd]
            exact hcond.1
          · rcases ih (counter+1) (u32 (cur + (new_subdev mem counter cur).mem_size)) last sd htl with
              hlt | ⟨info, hi, hfi, hbd⟩
            · left
              exact hlt
            · right
              refine ⟨info, ?_, hfi, hbd⟩
              rw [scanFrom_succ_noinfo mem fuel counter cur last hcond.1 hcond.2 hsz hinfo]
              exact List.mem_cons_of_mem _ hi

/-- C2 (amended): every subdevice the scan materializes has base_offset
strictly below the upper scan bound in effect when its header was read —
either the initial bound address_space_size - 1 (in u32) or the bound
u32sub1 (total length word) installed by an info subdevice of the same scan;
base_offset + size, by contrast, is never validated and can exceed the
declared address-space size (see scan_exceeds_address_space). -/
theorem subdevice_base_within_scan_bound :
    ∀ (mem : Nat → Nat) (size : Nat) (sd : flink_subdevice),
    sd ∈ (scan_for_subdevices mem size).subdevs →
    sd.base_addr < u32sub1 (u32 size) ∨
    ∃ info, info ∈ (scan_for_subdevices mem size).subdevs ∧
      info.function_id = INFO_FUNCTION_ID ∧
      sd.base_addr < u32sub1 (readBus mem (info.base_addr + (MAIN_HEADER_SIZE + SUB_HEADER_SIZE))) := by
  intro mem size sd hmem
  exact scanFrom_base_bound mem MAX_NOF_SUBDEVICES 0 0 (u32sub1 (u32 size)) sd hmem

/-- Witness for subdevice_base_within_scan_bound on the well-formed 64-byte
chain memW2 and its single subdevice. -/
theorem subdevice_base_within_scan_bound_witness :
    new_subdev memW2 0 0 ∈ (scan_for_subdevices memW2 64).subdevs ∧
    ((new_subdev memW2 0 0).base_addr < u32sub1 (u32 64) ∨
     ∃ info, info ∈ (scan_for_subdevices memW2 64).subdevs ∧
       info.function_id = INFO_FUNCTION_ID ∧
       (new_subdev memW2 0 0).base_addr <
         u32sub1 (readBus memW2 (info.base_addr + (MAIN_HEADER_SIZE + SUB_HEADER_SIZE)))) :=
  ⟨by decide, subdevice_base_within_scan_bound memW2 64 (new_subdev memW2 0 0) (by decide)⟩

end Flink
